import Mathlib

/-!
Shallow embedding of the hanzoai/paas fleet lifecycle controller:
the DigitalOcean provisioner request builders (platform/handlers/provisioner.js),
the DOKS cluster routes (cluster record state machine), the billing handlers
(pricing cache and cost calculator), and the build event watcher with its
backup commit-status notifier (monitor/handler/watchTaskRuns.js).

JavaScript conventions are modelled explicitly: absent or falsy strings are
the empty string, absent numbers are Option, and the or-else defaulting
idiom treats 0 and the empty string as falsy.
-/

namespace Paas

/-- JS or-else defaulting on numbers: 0 and absent are falsy. -/
def jsOrNat : Option Nat → Nat → Nat
  | some n, d => if n = 0 then d else n
  | none, d => d

/-- JS or-else defaulting on strings: the empty string and absent are falsy. -/
def jsOrStr : Option String → String → String
  | some s, d => if s = "" then d else s
  | none, d => d

/-! ## Provider gateway request bodies (platform/handlers/provisioner.js) -/

def DEFAULT_NODE_COUNT : Nat := 2

def DEFAULT_NODE_SIZE : String := "s-2vcpu-4gb"

/-- Node-pool creation request body sent to the provider by addNodePool. -/
structure AddPoolBody where
  size : String
  name : String
  count : Nat
  auto_scale : Bool
  min_nodes : Nat
  max_nodes : Nat
deriving DecidableEq, Repr

/-- Request body built by addNodePool: size and count default when falsy,
auto-scale is forced on with min 1 and max of count times 3 or 6. -/
def addNodePoolBody (name : String) (size : Option String) (count : Option Nat) : AddPoolBody :=
  { size := jsOrStr size DEFAULT_NODE_SIZE
    name := name
    count := jsOrNat count DEFAULT_NODE_COUNT
    auto_scale := true
    min_nodes := 1
    max_nodes := max (jsOrNat count DEFAULT_NODE_COUNT * 3) 6 }

/-- Node-pool resize request body sent to the provider by updateNodePool.
Count and size are only included when supplied. -/
structure UpdatePoolBody where
  count : Option Nat
  size : Option String
  auto_scale : Bool
  min_nodes : Nat
  max_nodes : Nat
deriving DecidableEq, Repr

/-- Request body built by updateNodePool: the max-nodes fallback count is the
literal 3, not the pool's previous count and not the creation default 2. -/
def updateNodePoolBody (count : Option Nat) (size : Option String) : UpdatePoolBody :=
  { count := count
    size := size
    auto_scale := true
    min_nodes := 1
    max_nodes := max (jsOrNat count 3 * 3) 6 }

/-! ## Cluster record data model (doks subdocument of an organization) -/

/-- Cached node pool entry inside the organization's doks record. -/
structure NodePool where
  poolId : String
  name : String
  size : String
  count : Nat
  autoScale : Bool
deriving DecidableEq, Repr

/-- The cached cluster record stored on the organization document.
Absent string fields are the empty string. -/
structure Doks where
  clusterId : String
  clusterName : String
  status : String
  region : String
  ha : Bool
  endpoint : String
  provisionError : String
  nodePools : List NodePool
  createdAt : Nat
deriving DecidableEq, Repr

/-- A freshly created doks subdocument with every field absent. -/
def Doks.empty : Doks :=
  { clusterId := "", clusterName := "", status := "", region := "", ha := false
    endpoint := "", provisionError := "", nodePools := [], createdAt := 0 }

/-- Node pool object as returned by the provider API. -/
structure DOPool where
  id : String
  name : String
  size : String
  count : Nat
  auto_scale : Bool
deriving DecidableEq, Repr

/-- Cluster object as returned by the provider API; state is status.state. -/
structure DOCluster where
  id : String
  name : String
  region_slug : String
  state : String
  endpoint : String
  ha : Bool
  node_pools : List DOPool
deriving DecidableEq, Repr

/-- Projection of a provider node pool into the cached record shape. -/
def importedPool (p : DOPool) : NodePool :=
  { poolId := p.id, name := p.name, size := p.size, count := p.count, autoScale := p.auto_scale }

/-! ## Cluster lifecycle routes (DOKS router) -/

/-- The provision route's conflict test: a cluster is considered present when
the record carries a clusterId and its status is not error. -/
def hasNonErrorCluster : Option Doks → Bool
  | some d => d.clusterId != "" && d.status != "error"
  | none => false

/-- Result of the provision route: HTTP status, whether the provider
create-cluster call was issued, and the final cached record. -/
structure ProvisionOutcome where
  httpStatus : Nat
  createCalled : Bool
  doks : Option Doks
deriving DecidableEq, Repr

/-- The optimistic pre-create write: status, region, ha and createdAt are set;
all other fields of an existing record are kept. -/
def markProvisioning (d : Option Doks) (region : Option String) (ha : Bool) (now : Nat) : Doks :=
  { d.getD Doks.empty with
      status := "provisioning"
      region := jsOrStr region "sfo3"
      ha := ha
      createdAt := now }

/-- Reconciliation of the cached record from the provider create response. -/
def applyClusterResponse (d : Doks) (c : DOCluster) : Doks :=
  { d with
      clusterId := c.id
      clusterName := c.name
      region := c.region_slug
      status := if c.state = "running" then "running" else "provisioning"
      endpoint := c.endpoint
      ha := c.ha
      nodePools := c.node_pools.map importedPool }

/-- The provision catch block: status becomes error, provisionError records
the failure message, everything else is kept. -/
def markError (d : Option Doks) (msg : String) : Doks :=
  { d.getD Doks.empty with status := "error", provisionError := msg }

/-- The provision route handler for an existing organization, with the
provider create call's result passed in explicitly. -/
def provision (d : Option Doks) (region : Option String) (ha : Bool) (now : Nat)
    (res : Except String DOCluster) : ProvisionOutcome :=
  if hasNonErrorCluster d then
    { httpStatus := 409, createCalled := false, doks := d }
  else
    let d1 := markProvisioning d region ha now
    match res with
    | .error msg =>
        { httpStatus := 500, createCalled := true, doks := some (markError (some d1) msg) }
    | .ok c =>
        { httpStatus := 201, createCalled := true, doks := some (applyClusterResponse d1 c) }

/-- Result of the status-poll route. -/
structure PollOutcome where
  httpStatus : Nat
  doks : Option Doks
deriving DecidableEq, Repr

/-- The status-poll route handler: the cached status only moves to running
when the provider reports running, and the cached endpoint and node pools are
rewritten only inside the branch where the status actually changed. -/
def statusPoll (d : Option Doks) (res : Except String DOCluster) : PollOutcome :=
  match d with
  | none => { httpStatus := 404, doks := none }
  | some dd =>
    if dd.clusterId = "" then { httpStatus := 404, doks := some dd }
    else
      match res with
      | .error _ => { httpStatus := 500, doks := some dd }
      | .ok c =>
        let newStatus := if c.state = "running" then "running" else dd.status
        if newStatus ≠ dd.status then
          { httpStatus := 200
            doks := some { dd with
              status := newStatus
              endpoint := c.endpoint
              nodePools := c.node_pools.map importedPool } }
        else { httpStatus := 200, doks := some dd }

/-- One observable action of the delete route, in temporal order. -/
inductive DeleteAct where
  | setStatusDeleting
  | providerDelete
  | clearRecord
deriving DecidableEq, Repr

/-- Result of the delete route: HTTP status, the ordered trace of writes and
provider calls, and the final cached record. -/
structure DeleteOutcome where
  httpStatus : Nat
  trace : List DeleteAct
  doks : Option Doks
deriving DecidableEq, Repr

/-- The delete route handler: confirmation is the literal query string value
true; the record is cleared only after the provider delete returns. -/
def deleteCluster (d : Option Doks) (confirm : String) (providerOk : Bool) : DeleteOutcome :=
  match d with
  | none => { httpStatus := 404, trace := [], doks := none }
  | some dd =>
    if dd.clusterId = "" then { httpStatus := 404, trace := [], doks := some dd }
    else if confirm ≠ "true" then { httpStatus := 400, trace := [], doks := some dd }
    else if providerOk then
      { httpStatus := 204
        trace := [.setStatusDeleting, .providerDelete, .clearRecord]
        doks := none }
    else
      { httpStatus := 500
        trace := [.setStatusDeleting, .providerDelete]
        doks := some { dd with status := "deleting" } }

/-- The add-node-pool route's effect on the cached record. -/
def addPoolRoute (d : Option Doks) (res : Except String DOPool) : Option Doks :=
  match d with
  | none => none
  | some dd =>
    if dd.clusterId = "" ∨ dd.status ≠ "running" then some dd
    else
      match res with
      | .error _ => some dd
      | .ok p => some { dd with nodePools := dd.nodePools ++ [importedPool p] }

/-- The scale-node-pool route's effect on the cached record. -/
def updatePoolRoute (d : Option Doks) (poolId : String) (res : Except String DOPool) :
    Option Doks :=
  match d with
  | none => none
  | some dd =>
    if dd.clusterId = "" ∨ dd.status ≠ "running" then some dd
    else
      match res with
      | .error _ => some dd
      | .ok p =>
        some { dd with nodePools := dd.nodePools.map fun q =>
          if q.poolId = poolId then { q with count := p.count, size := p.size } else q }

/-- The delete-node-pool route's effect on the cached record. -/
def removePoolRoute (d : Option Doks) (poolId : String) (providerOk : Bool) : Option Doks :=
  match d with
  | none => none
  | some dd =>
    if dd.clusterId = "" ∨ dd.status ≠ "running" then some dd
    else if providerOk then
      some { dd with nodePools := dd.nodePools.filter fun q => q.poolId != poolId }
    else some dd

/-- The HA upgrade route's effect on the cached record. -/
def upgradeHaRoute (d : Option Doks) (providerOk : Bool) : Option Doks :=
  match d with
  | none => none
  | some dd =>
    if dd.clusterId = "" ∨ dd.status ≠ "running" then some dd
    else if dd.ha then some dd
    else if providerOk then some { dd with ha := true }
    else some dd

/-- One controller operation on an organization's cached record, with the
provider's response chosen by the environment. -/
inductive OrgOp where
  | provisionOp (region : Option String) (haFlag : Bool) (now : Nat) (res : Except String DOCluster)
  | pollOp (res : Except String DOCluster)
  | deleteOp (confirm : String) (providerOk : Bool)
  | addPoolOp (res : Except String DOPool)
  | scalePoolOp (poolId : String) (res : Except String DOPool)
  | removePoolOp (poolId : String) (providerOk : Bool)
  | haOp (providerOk : Bool)

/-- Effect of one controller operation on the cached record. -/
def applyOp (d : Option Doks) : OrgOp → Option Doks
  | .provisionOp r h n res => (provision d r h n res).doks
  | .pollOp res => (statusPoll d res).doks
  | .deleteOp c ok => (deleteCluster d c ok).doks
  | .addPoolOp res => addPoolRoute d res
  | .scalePoolOp pid res => updatePoolRoute d pid res
  | .removePoolOp pid ok => removePoolRoute d pid ok
  | .haOp ok => upgradeHaRoute d ok

/-- Provider failure messages carried by an operation are non-empty. -/
def opMsgsNonempty : OrgOp → Prop
  | .provisionOp _ _ _ (.error m) => m ≠ ""
  | _ => True

/-- The error-status invariant: a record in error status carries a non-empty
provisionError message. -/
def errorStateInv : Option Doks → Prop
  | none => True
  | some dd => dd.status = "error" → dd.provisionError ≠ ""

/-! ## Pricing cache and cost calculator (billing handlers) -/

/-- One entry of the provider's size listing. -/
structure DOSize where
  slug : String
  price_monthly : ℚ
  price_hourly : ℚ
  vcpus : Nat
  memory : Nat
  disk : Nat
  description : String
deriving DecidableEq, Repr

/-- Normalized pricing record returned by getDropletPricing. -/
structure PricingInfo where
  slug : String
  priceMonthly : ℚ
  priceHourly : ℚ
  vcpus : Nat
  memory : Nat
  disk : Nat
  description : String
deriving DecidableEq, Repr

/-- The gateway pricing lookup: scan the size listing for the slug; a missing
slug yields none. -/
def getDropletPricing (sizes : List DOSize) (sizeSlug : String) : Option PricingInfo :=
  (sizes.find? fun s => s.slug == sizeSlug).map fun s =>
    { slug := s.slug, priceMonthly := s.price_monthly, priceHourly := s.price_hourly
      vcpus := s.vcpus, memory := s.memory, disk := s.disk, description := s.description }

/-- A pricing cache entry: the data plus the time it was fetched. -/
structure CacheEntry where
  data : PricingInfo
  ts : Nat
deriving DecidableEq, Repr

/-- The module-level pricing cache map, keyed by size slug. -/
abbrev PriceCache := List (String × CacheEntry)

/-- Cache time-to-live of one hour, in milliseconds. -/
def CACHE_TTL : Nat := 60 * 60 * 1000

/-- Map get on the cache. -/
def cacheGet (c : PriceCache) (k : String) : Option CacheEntry :=
  (c.find? fun e => e.1 == k).map (·.2)

/-- Map set on the cache, replacing any entry for the same key. -/
def cacheSet (c : PriceCache) (k : String) (v : CacheEntry) : PriceCache :=
  (k, v) :: c.filter fun e => e.1 != k

/-- Result of one cached pricing lookup: the returned value, the cache
afterwards, and how many upstream size-listing calls were made. -/
structure PricingLookup where
  result : Option PricingInfo
  cache : PriceCache
  upstreamCalls : Nat
deriving DecidableEq, Repr

/-- The upstream branch of getCachedPricing: one fetch; the cache is written
only when pricing data was found. -/
def fetchPricing (cache : PriceCache) (sizeSlug : String) (now : Nat) (sizes : List DOSize) :
    PricingLookup :=
  match getDropletPricing sizes sizeSlug with
  | some data =>
      { result := some data, cache := cacheSet cache sizeSlug { data := data, ts := now }
        upstreamCalls := 1 }
  | none => { result := none, cache := cache, upstreamCalls := 1 }

/-- The billing handler getCachedPricing: return a cache entry younger than
the TTL without fetching, otherwise fetch once. -/
def getCachedPricing (cache : PriceCache) (sizeSlug : String) (now : Nat)
    (sizes : List DOSize) : PricingLookup :=
  match cacheGet cache sizeSlug with
  | some entry =>
      if now - entry.ts < CACHE_TTL then
        { result := some entry.data, cache := cache, upstreamCalls := 0 }
      else fetchPricing cache sizeSlug now sizes
  | none => fetchPricing cache sizeSlug now sizes

/-- Fixed monthly HA control-plane price. -/
def HA_MONTHLY_COST : ℚ := 40

/-- One line item of a cost breakdown. -/
structure CostItem where
  type : String
  pool : String
  size : String
  count : Nat
  unitPrice : ℚ
  monthlyTotal : ℚ
  vcpus : ℚ
  memoryMb : ℚ
  diskGb : ℚ
deriving DecidableEq, Repr

/-- Line item for one node pool priced by the cache. -/
def nodeItem (p : NodePool) (pr : PricingInfo) : CostItem :=
  { type := "nodes", pool := p.name, size := p.size, count := p.count
    unitPrice := pr.priceMonthly
    monthlyTotal := pr.priceMonthly * (p.count : ℚ)
    vcpus := ((pr.vcpus * p.count : ℕ) : ℚ)
    memoryMb := ((pr.memory * p.count : ℕ) : ℚ)
    diskGb := ((pr.disk * p.count : ℕ) : ℚ) }

/-- The fixed HA control-plane line item. -/
def haItem : CostItem :=
  { type := "ha_control_plane", pool := "", size := "", count := 0
    unitPrice := 0, monthlyTotal := HA_MONTHLY_COST, vcpus := 0, memoryMb := 0, diskGb := 0 }

/-- A derived cost breakdown. -/
structure CostBreakdown where
  items : List CostItem
  subtotal : ℚ
  markupPercent : ℚ
  markup : ℚ
  monthlyTotal : ℚ
deriving DecidableEq, Repr

/-- The zero-cost breakdown returned for clusters that are absent,
provider-less or in error status. -/
def zeroBreakdown : CostBreakdown :=
  { items := [], subtotal := 0, markupPercent := 0, markup := 0, monthlyTotal := 0 }

/-- The billing handler calculateOrgCost, with the per-slug pricing lookup
standing for getCachedPricing and the markup percentage for the environment
configuration. Pools whose pricing lookup fails are skipped, not fatal. -/
def calculateOrgCost (d : Option Doks) (priceOf : String → Option PricingInfo)
    (markupPercent : ℚ) : CostBreakdown :=
  match d with
  | none => zeroBreakdown
  | some dd =>
    if dd.clusterId = "" ∨ dd.status = "error" then zeroBreakdown
    else
      let nodeItems := dd.nodePools.filterMap fun p => (priceOf p.size).map (nodeItem p)
      let items := nodeItems ++ (if dd.ha then [haItem] else [])
      let subtotal := (items.map (·.monthlyTotal)).sum
      let markup := subtotal * (markupPercent / 100)
      { items := items, subtotal := subtotal, markupPercent := markupPercent
        markup := markup, monthlyTotal := subtotal + markup }

/-! ## Commit status notifier (monitor/handler/watchTaskRuns.js) -/

/-- Character-list test that the first argument leads the second. -/
def leadMatch : List Char → List Char → Bool
  | [], _ => true
  | _ :: _, [] => false
  | p :: ps, c :: cs => p == c && leadMatch ps cs

/-- Removal of the first occurrence of a non-empty pattern, as the JS string
replace of a plain pattern by the empty string. -/
def removeFirstSub (pat : List Char) : List Char → List Char
  | [] => []
  | c :: rest =>
    if pat.isEmpty then c :: rest
    else if leadMatch pat (c :: rest) then (c :: rest).drop pat.length
    else c :: removeFirstSub pat rest

/-- The https variant of the GitHub host pattern. -/
def githubHostHttps : List Char := "https://github.com/".toList

/-- The http variant of the GitHub host pattern. -/
def githubHostHttp : List Char := "http://github.com/".toList

/-- Removal of the first GitHub host occurrence from a repository URL, as the
regex replace in postGithubCommitStatus. -/
def removeFirstGithubHost : List Char → List Char
  | [] => []
  | c :: rest =>
    if leadMatch githubHostHttps (c :: rest) then (c :: rest).drop githubHostHttps.length
    else if leadMatch githubHostHttp (c :: rest) then (c :: rest).drop githubHostHttp.length
    else c :: removeFirstGithubHost rest

/-- String wrapper for the GitHub host removal. -/
def stripGithubHost (s : String) : String :=
  String.mk (removeFirstGithubHost s.toList)

/-- Character-list test that the first argument ends the second. -/
def trailMatch (pat s : List Char) : Bool :=
  leadMatch pat.reverse s.reverse

/-- The anchored git-extension removal regex of postGithubCommitStatus. -/
def stripSuffixGit (s : String) : String :=
  if trailMatch ".git".toList s.toList then
    String.mk (s.toList.take (s.toList.length - 4))
  else s

/-- The anchored trailing-slash removal regex of postGithubCommitStatus. -/
def stripTrailingSlash (s : String) : String :=
  if trailMatch "/".toList s.toList then
    String.mk (s.toList.take (s.toList.length - 1))
  else s

/-- One outbound commit-status request. -/
structure Call where
  provider : String
  repo : String
  sha : String
  state : String
deriving DecidableEq, Repr

/-- The GitHub commit-status post: guarded on its arguments and on deriving a
usable owner-and-repo path from the URL; at most one request. -/
def postGithubCommitStatus (pat repoUrl sha state : String) : List Call :=
  if pat = "" ∨ repoUrl = "" ∨ sha = "" then []
  else
    let ownerRepo := stripTrailingSlash (stripSuffixGit (stripGithubHost repoUrl))
    if ownerRepo = "" ∨ ¬ ownerRepo.toList.contains '/' then []
    else [{ provider := "github", repo := ownerRepo, sha := sha, state := state }]

/-- URL encoding of slashes in a GitLab project identifier. -/
def encodeProjectId (s : String) : String :=
  String.join (s.toList.map fun c => if c = '/' then "%2F" else String.singleton c)

/-- The GitLab commit-status post. -/
def postGitlabCommitStatus (pat projectId sha state : String) : List Call :=
  if pat = "" ∨ projectId = "" ∨ sha = "" then []
  else [{ provider := "gitlab", repo := encodeProjectId projectId, sha := sha, state := state }]

/-- The Bitbucket commit-status post. -/
def postBitbucketCommitStatus (pat repoFullName sha state : String) : List Call :=
  if pat = "" ∨ repoFullName = "" ∨ sha = "" then []
  else [{ provider := "bitbucket", repo := repoFullName, sha := sha, state := state }]

/-- Git credential parameters extracted from a pipeline run. -/
structure GitParams where
  provider : String
  pat : String
  repoUrl : String
  revision : String
  repoName : String
  projectId : String
deriving DecidableEq, Repr

/-- Last-wins lookup over the name-and-value parameter list, as the JS object
built by assignment in a loop; absent keys give the empty string. -/
def lookupParam (ps : List (String × String)) (k : String) : String :=
  match (ps.filter fun p => p.1 == k).getLast? with
  | some p => p.2
  | none => ""

/-- The extractGitParams function: the provider is decided by the first
present (truthy) personal-access-token parameter, GitHub then GitLab then
Bitbucket; no token means no result. -/
def extractGitParams (params : Option (List (String × String))) : Option GitParams :=
  match params with
  | none => none
  | some ps =>
    if lookupParam ps "githubpat" ≠ "" then
      some { provider := "github", pat := lookupParam ps "githubpat"
             repoUrl := lookupParam ps "gitrepourl", revision := lookupParam ps "gitrevision"
             repoName := lookupParam ps "gitreponame", projectId := lookupParam ps "gitlabprojectid" }
    else if lookupParam ps "gitlabpat" ≠ "" then
      some { provider := "gitlab", pat := lookupParam ps "gitlabpat"
             repoUrl := lookupParam ps "gitrepourl", revision := lookupParam ps "gitrevision"
             repoName := lookupParam ps "gitreponame", projectId := lookupParam ps "gitlabprojectid" }
    else if lookupParam ps "bitbucketpat" ≠ "" then
      some { provider := "bitbucket", pat := lookupParam ps "bitbucketpat"
             repoUrl := lookupParam ps "gitrepourl", revision := lookupParam ps "gitrevision"
             repoName := lookupParam ps "gitreponame", projectId := lookupParam ps "gitlabprojectid" }
    else none

/-- Success classification of an event reason: Succeeded and the explicit
cancellation both count as success. -/
def isSuccessReason (reason : String) : Bool :=
  reason == "Succeeded" || reason == "TaskRunCancelled"

/-- The reportBackupCommitStatus function: silent on missing credentials or
an absent or sentinel revision, otherwise one provider-specific post with the
outcome mapped into that provider's vocabulary. -/
def reportBackupCommitStatus (params : Option (List (String × String))) (reason : String) :
    List Call :=
  match extractGitParams params with
  | none => []
  | some g =>
    if g.revision = "" ∨ g.revision = "N/A" then []
    else
      let succ := isSuccessReason reason
      if g.provider = "github" then
        postGithubCommitStatus g.pat g.repoUrl g.revision (if succ then "success" else "failure")
      else if g.provider = "gitlab" then
        postGitlabCommitStatus g.pat (if g.projectId = "" then g.repoName else g.projectId)
          g.revision (if succ then "success" else "failed")
      else if g.provider = "bitbucket" then
        postBitbucketCommitStatus g.pat g.repoName g.revision
          (if succ then "SUCCESSFUL" else "FAILED")
      else []

/-! ## Build event watcher (monitor/handler/watchTaskRuns.js) -/

/-- A delivered build event; the timestamps are absent when the source field
is missing or empty, and carry the parsed epoch milliseconds otherwise. -/
structure BuildEvent where
  reason : String
  involvedObjectName : String
  lastTimestamp : Option Nat
  firstTimestamp : Option Nat
deriving DecidableEq, Repr

/-- A resolved TaskRun object: the event-listener label (empty when absent)
and the declared parameters. -/
structure TaskRun where
  eventListener : String
  params : Option (List (String × String))
deriving DecidableEq, Repr

/-- The event-time extraction: lastTimestamp when truthy, else firstTimestamp
when truthy, else nothing. -/
def eventTime (e : BuildEvent) : Option Nat :=
  match e.lastTimestamp with
  | some t => some t
  | none => e.firstTimestamp

/-- The subscription-start filter: an event is dropped when its extracted
time is truthy (non-zero) and earlier than the threshold. -/
def droppedByStartFilter (threshold : Nat) (e : BuildEvent) : Bool :=
  match eventTime e with
  | some t => t != 0 && t < threshold
  | none => false

/-- The fixed event-reason vocabulary accepted by the watcher. -/
def watchedReasons : List String :=
  ["Failed", "Succeeded", "Error", "Started", "Running",
   "TaskRunCancelled", "TaskRunTimeout", "TaskRunImagePullFailed"]

/-- The terminal reasons that trigger the backup commit status. -/
def terminalReasons : List String :=
  ["Succeeded", "Failed", "Error", "TaskRunCancelled", "TaskRunTimeout",
   "TaskRunImagePullFailed"]

/-- Split of a character list on a separator character, keeping empty
segments, as the JS string split. -/
def splitOnChar (sep : Char) : List Char → List (List Char)
  | [] => [[]]
  | x :: xs =>
    let rest := splitOnChar sep xs
    if x == sep then [] :: rest
    else
      match rest with
      | [] => [[x]]
      | r :: rs => (x :: r) :: rs

/-- Status string sent to telemetry: the first TaskRun occurrence removed. -/
def stripTaskRun (s : String) : String :=
  String.mk (removeFirstSub "TaskRun".toList s.toList)

/-- One side effect of handling an event. -/
inductive Effect where
  | telemetry (containerSlug status : String)
  | commit (c : Call)
deriving DecidableEq, Repr

/-- Handling of an event that passed the time and reason filters: resolve the
TaskRun, read the event-listener label, derive the container slug as the
third dash segment, post telemetry when the slug is usable, and post the
backup commit status on terminal reasons. -/
def processQualified (e : BuildEvent) (tr : Option TaskRun) : List Effect :=
  match tr with
  | none => []
  | some t =>
    if t.eventListener = "" then []
    else
      let slugOpt := ((splitOnChar '-' t.eventListener.toList).map String.mk)[2]?
      let telemetryEffs :=
        match slugOpt with
        | some slug =>
            if slug = "" then []
            else [Effect.telemetry slug (stripTaskRun e.reason)]
        | none => []
      let commitEffs :=
        if e.reason ∈ terminalReasons then
          (reportBackupCommitStatus t.params e.reason).map Effect.commit
        else []
      telemetryEffs ++ commitEffs

/-- The watch callback for one delivered event, with the TaskRun resolution
passed in explicitly. -/
def handleEvent (threshold : Nat) (e : BuildEvent) (tr : Option TaskRun) : List Effect :=
  if droppedByStartFilter threshold e then []
  else if e.reason ∈ watchedReasons then processQualified e tr
  else []

/-- Delay before restarting the subscription after a transport error raised
by the running watch. -/
def WATCH_ERROR_RETRY_DELAY_MS : Nat := 2000

/-- Delay before restarting after a failure to establish the subscription. -/
def WATCH_INIT_RETRY_DELAY_MS : Nat := 1000

/-- The restarts scheduled by the watch's transport-error callback: exactly
one, after the fixed delay. -/
def watchErrorCallbackSchedule : List Nat := [WATCH_ERROR_RETRY_DELAY_MS]

/-- The watcher's per-subscription state: the start-time threshold captured
when the subscription was (re)established. -/
structure WatcherState where
  threshold : Nat
deriving DecidableEq, Repr

/-- One input to the watcher loop: an event delivery or a transport error
whose reconnect lands at the given time. -/
inductive WatchInput where
  | deliver (e : BuildEvent) (tr : Option TaskRun)
  | transportError (reconnectTime : Nat)

/-- One step of the watcher loop: deliveries are filtered against the current
threshold; a transport error reconnects and resets the threshold to the
reconnect time. -/
def stepWatcher (st : WatcherState) : WatchInput → WatcherState × List Effect
  | .deliver e tr => (st, handleEvent st.threshold e tr)
  | .transportError t => ({ threshold := t }, [])

/-! ## Concrete inputs used by counterexamples and witnesses -/

/-- A cached record mid-provision: the status is set but no clusterId yet. -/
def dMidProvision : Doks :=
  { Doks.empty with status := "provisioning", region := "sfo3" }

/-- A healthy running cached record. -/
def dRunning : Doks :=
  { Doks.empty with
      clusterId := "c1", clusterName := "hanzo-acme", status := "running"
      region := "sfo3", endpoint := "https://old.example.com"
      nodePools := [{ poolId := "p1", name := "pool", size := "s-2vcpu-4gb"
                      count := 2, autoScale := true }] }

/-- A cached record left in error status by a failed provision. -/
def dErrored : Doks :=
  { Doks.empty with status := "error", provisionError := "DO API 500" }

/-- A provider response for a newly created cluster. -/
def cNew : DOCluster :=
  { id := "c9", name := "hanzo-acme", region_slug := "sfo3", state := "provisioning"
    endpoint := "", ha := false
    node_pools := [{ id := "np1", name := "hanzo-acme-pool", size := "s-2vcpu-4gb"
                     count := 2, auto_scale := true }] }

/-- A provider response for a running cluster whose endpoint moved. -/
def cFresh : DOCluster :=
  { id := "c1", name := "hanzo-acme", region_slug := "sfo3", state := "running"
    endpoint := "https://new.example.com", ha := false
    node_pools := [{ id := "p1", name := "pool", size := "s-2vcpu-4gb"
                     count := 3, auto_scale := true }] }

/-- A size listing holding the default node size. -/
def sampleSizes : List DOSize :=
  [{ slug := "s-2vcpu-4gb", price_monthly := 24, price_hourly := 1
     vcpus := 2, memory := 4096, disk := 80, description := "Basic" }]

/-- The pricing record for the sample size. -/
def samplePricing : PricingInfo :=
  { slug := "s-2vcpu-4gb", priceMonthly := 24, priceHourly := 1
    vcpus := 2, memory := 4096, disk := 80, description := "Basic" }

/-- A cache holding the sample pricing, fetched at time 1000. -/
def sampleCache : PriceCache :=
  [("s-2vcpu-4gb", { data := samplePricing, ts := 1000 })]

/-- Pipeline parameters of a GitHub-built run. -/
def githubRunParams : List (String × String) :=
  [("githubpat", "tok"), ("gitrepourl", "https://github.com/acme/app"),
   ("gitrevision", "abc123")]

/-- Pipeline parameters whose revision is the sentinel. -/
def sentinelRunParams : List (String × String) :=
  [("githubpat", "tok"), ("gitrepourl", "https://github.com/acme/app"),
   ("gitrevision", "N/A")]

/-- An event carrying the epoch-zero timestamp. -/
def epochZeroEvent : BuildEvent :=
  { reason := "Succeeded", involvedObjectName := "tr1"
    lastTimestamp := some 0, firstTimestamp := none }

/-- An event whose timestamp predates a reconnect at time 100. -/
def staleEvent : BuildEvent :=
  { reason := "Succeeded", involvedObjectName := "tr3"
    lastTimestamp := some 50, firstTimestamp := none }

/-- An event carrying no timestamp at all. -/
def timelessEvent : BuildEvent :=
  { reason := "Succeeded", involvedObjectName := "tr2"
    lastTimestamp := none, firstTimestamp := none }

/-- A resolvable TaskRun attributable to a container. -/
def sampleTaskRun : TaskRun :=
  { eventListener := "github-listener-lkv0ier4", params := some githubRunParams }

/-! ## Theorems -/

/-- Claim C1, counterexample: the auto-scale bound formula is not applied
identically on creation and resize. A pool created with an explicit count of
one gets the ceiling six, but a later resize that supplies no count (a
size-only change) sends the ceiling nine, computed from the fixed fallback
three rather than from the pool's most recent explicit count; creation with
no count defaults to two (ceiling six) while resize defaults to three. -/
theorem C1_counterexample :
    (addNodePoolBody "pool" (some "s-2vcpu-4gb") (some 1)).max_nodes = 6 ∧
    (updateNodePoolBody none (some "s-4vcpu-8gb")).max_nodes = 9 ∧
    max (1 * 3) 6 = 6 ∧ (9 : Nat) ≠ 6 ∧
    (addNodePoolBody "pool" none none).max_nodes = 6 ∧
    (updateNodePoolBody none none).max_nodes = 9 := by
  decide

/-- Claim C1, amended: when a non-zero count is explicitly supplied, both the
creation and the resize request carry minNodes one and maxNodes equal to the
maximum of three times that count and six; when no count is supplied, the
creation body falls back to the default count two (ceiling six) while the
resize body falls back to the fixed count three (ceiling nine), so a resize
without an explicit count does not preserve a count-derived ceiling. -/
theorem C1_amended (name : String) (size : Option String) (c : Nat) (hc : c ≠ 0) :
    (addNodePoolBody name size (some c)).min_nodes = 1 ∧
    (addNodePoolBody name size (some c)).max_nodes = max (c * 3) 6 ∧
    (updateNodePoolBody (some c) size).min_nodes = 1 ∧
    (updateNodePoolBody (some c) size).max_nodes = max (c * 3) 6 ∧
    (addNodePoolBody name size none).max_nodes = 6 ∧
    (updateNodePoolBody none size).max_nodes = 9 := by
  simp [addNodePoolBody, updateNodePoolBody, jsOrNat, hc, DEFAULT_NODE_COUNT]

/-- Claim C1, witness: the amended statement evaluated at an explicit count
of four and at absent counts. -/
theorem C1_witness :
    (addNodePoolBody "p" none (some 4)).min_nodes = 1 ∧
    (addNodePoolBody "p" none (some 4)).max_nodes = max (4 * 3) 6 ∧
    (updateNodePoolBody (some 4) none).min_nodes = 1 ∧
    (updateNodePoolBody (some 4) none).max_nodes = max (4 * 3) 6 ∧
    (addNodePoolBody "p" none none).max_nodes = 6 ∧
    (updateNodePoolBody none none).max_nodes = 9 :=
  C1_amended "p" none 4 (by decide)

/-- Claim C2, counterexample: a non-error cluster record that lacks a
provider-assigned clusterId (for example one stuck mid-provision) does not
block a new provision request: the handler proceeds and calls the provider
instead of returning a conflict. -/
theorem C2_counterexample :
    dMidProvision.status = "provisioning" ∧ dMidProvision.status ≠ "error" ∧
    (provision (some dMidProvision) none false 0 (.ok cNew)).createCalled = true ∧
    (provision (some dMidProvision) none false 0 (.ok cNew)).httpStatus = 201 := by
  decide

/-- Claim C2, amended: when the existing record carries a provider-assigned
clusterId and its status is not error, a provision request is rejected with
conflict status 409, the provider create-cluster call is not issued, and the
stored record is returned unchanged; a record without a clusterId does not
block provisioning. -/
theorem C2_amended (dd : Doks) (region : Option String) (hb : Bool) (now : Nat)
    (res : Except String DOCluster) (h1 : dd.clusterId ≠ "") (h2 : dd.status ≠ "error") :
    provision (some dd) region hb now res =
      { httpStatus := 409, createCalled := false, doks := some dd } := by
  have hc : hasNonErrorCluster (some dd) = true := by
    simp [hasNonErrorCluster, h1, h2]
  simp [provision, hc]

/-- Claim C2, witness: the amended statement evaluated on a running record. -/
theorem C2_witness :
    provision (some dRunning) none false 0 (.ok cNew) =
      { httpStatus := 409, createCalled := false, doks := some dRunning } :=
  C2_amended dRunning none false 0 (.ok cNew) (by decide) (by decide)

/-- Claim C3: with a clusterId set, a delete without the literal confirmation
value true is rejected with 400, issues no provider call and leaves the
record untouched; with confirmation the handler first writes the deleting
status, then calls the provider delete, and clears the record only when that
call succeeds — on provider failure the record survives in deleting status. -/
theorem C3_thm :
    (∀ (dd : Doks) (confirm : String) (providerOk : Bool), dd.clusterId ≠ "" →
        confirm ≠ "true" →
        deleteCluster (some dd) confirm providerOk =
          { httpStatus := 400, trace := [], doks := some dd }) ∧
    (∀ dd : Doks, dd.clusterId ≠ "" →
        deleteCluster (some dd) "true" true =
          { httpStatus := 204
            trace := [.setStatusDeleting, .providerDelete, .clearRecord]
            doks := none }) ∧
    (∀ dd : Doks, dd.clusterId ≠ "" →
        deleteCluster (some dd) "true" false =
          { httpStatus := 500
            trace := [.setStatusDeleting, .providerDelete]
            doks := some { dd with status := "deleting" } }) := by
  refine ⟨?_, ?_, ?_⟩
  · intro dd confirm providerOk h1 h2
    simp [deleteCluster, h1, h2]
  · intro dd h1
    simp [deleteCluster, h1]
  · intro dd h1
    simp [deleteCluster, h1]

/-- Claim C3, witness: the three delete behaviours evaluated on a running
record with an unconfirmed request, a confirmed successful delete, and a
confirmed delete whose provider call fails. -/
theorem C3_witness :
    deleteCluster (some dRunning) "no" true =
      { httpStatus := 400, trace := [], doks := some dRunning } ∧
    deleteCluster (some dRunning) "true" true =
      { httpStatus := 204
        trace := [.setStatusDeleting, .providerDelete, .clearRecord]
        doks := none } ∧
    deleteCluster (some dRunning) "true" false =
      { httpStatus := 500
        trace := [.setStatusDeleting, .providerDelete]
        doks := some { dRunning with status := "deleting" } } :=
  ⟨C3_thm.1 dRunning "no" true (by decide) (by decide),
   C3_thm.2.1 dRunning (by decide),
   C3_thm.2.2 dRunning (by decide)⟩

/-- The status poll either leaves the record exactly as read or produces a
record in running status. -/
theorem statusPoll_inv (d : Option Doks) (res : Except String DOCluster) :
    (statusPoll d res).doks = d ∨
    ∃ dd, (statusPoll d res).doks = some dd ∧ dd.status = "running" := by
  cases d with
  | none => left; rfl
  | some dd =>
    by_cases h1 : dd.clusterId = ""
    · left; simp [statusPoll, h1]
    · cases res with
      | error m => left; simp [statusPoll, h1]
      | ok c =>
        by_cases h2 : c.state = "running"
        · by_cases h3 : dd.status = "running"
          · left; simp [statusPoll, h1, h2, h3]
          · right
            have hstep : (statusPoll (some dd) (Except.ok c)).doks = some { dd with status := "running", endpoint := c.endpoint, nodePools := c.node_pools.map importedPool } := by
              have h4 : ¬ ("running" = dd.status) := fun hx => h3 hx.symm
              simp [statusPoll, h1, h2, h4]
            exact ⟨_, hstep, rfl⟩
        · left; simp [statusPoll, h1, h2]

/-- The delete route leaves the record as read, clears it, or leaves it in
deleting status. -/
theorem deleteCluster_inv (d : Option Doks) (confirm : String) (ok : Bool) :
    (deleteCluster d confirm ok).doks = d ∨ (deleteCluster d confirm ok).doks = none ∨
    ∃ dd, (deleteCluster d confirm ok).doks = some dd ∧ dd.status = "deleting" := by
  cases d with
  | none => right; left; rfl
  | some dd =>
    by_cases h1 : dd.clusterId = ""
    · left; simp [deleteCluster, h1]
    · by_cases h2 : confirm = "true"
      · cases ok with
        | true => right; left; simp [deleteCluster, h1, h2]
        | false =>
          right; right
          refine ⟨{ dd with status := "deleting" }, ?_, rfl⟩
          simp [deleteCluster, h1, h2]
      · left; simp [deleteCluster, h1, h2]

/-- The add-node-pool route leaves the record as read or produces a record in
running status. -/
theorem addPoolRoute_inv (d : Option Doks) (res : Except String DOPool) :
    addPoolRoute d res = d ∨
    ∃ dd, addPoolRoute d res = some dd ∧ dd.status = "running" := by
  cases d with
  | none => left; rfl
  | some dd =>
    by_cases hg : dd.clusterId = "" ∨ dd.status ≠ "running"
    · left; simp [addPoolRoute, hg]
    · push_neg at hg
      cases res with
      | error m => left; simp [addPoolRoute, hg.1, hg.2]
      | ok p =>
        right
        refine ⟨{ dd with nodePools := dd.nodePools ++ [importedPool p] }, ?_, hg.2⟩
        simp [addPoolRoute, hg.1, hg.2]

/-- The scale-node-pool route leaves the record as read or produces a record
in running status. -/
theorem updatePoolRoute_inv (d : Option Doks) (pid : String) (res : Except String DOPool) :
    updatePoolRoute d pid res = d ∨
    ∃ dd, updatePoolRoute d pid res = some dd ∧ dd.status = "running" := by
  cases d with
  | none => left; rfl
  | some dd =>
    by_cases hg : dd.clusterId = "" ∨ dd.status ≠ "running"
    · left; simp [updatePoolRoute, hg]
    · push_neg at hg
      cases res with
      | error m => left; simp [updatePoolRoute, hg.1, hg.2]
      | ok p =>
        right
        refine ⟨{ dd with nodePools := dd.nodePools.map fun q => if q.poolId = pid then { q with count := p.count, size := p.size } else q }, ?_, hg.2⟩
        simp [updatePoolRoute, hg.1, hg.2]

/-- The delete-node-pool route leaves the record as read or produces a record
in running status. -/
theorem removePoolRoute_inv (d : Option Doks) (pid : String) (ok : Bool) :
    removePoolRoute d pid ok = d ∨
    ∃ dd, removePoolRoute d pid ok = some dd ∧ dd.status = "running" := by
  cases d with
  | none => left; rfl
  | some dd =>
    by_cases hg : dd.clusterId = "" ∨ dd.status ≠ "running"
    · left; simp [removePoolRoute, hg]
    · push_neg at hg
      cases ok with
      | false => left; simp [removePoolRoute, hg.1, hg.2]
      | true =>
        right
        refine ⟨{ dd with nodePools := dd.nodePools.filter fun q => q.poolId != pid }, ?_, hg.2⟩
        simp [removePoolRoute, hg.1, hg.2]

/-- The HA upgrade route leaves the record as read or produces a record in
running status. -/
theorem upgradeHaRoute_inv (d : Option Doks) (ok : Bool) :
    upgradeHaRoute d ok = d ∨
    ∃ dd, upgradeHaRoute d ok = some dd ∧ dd.status = "running" := by
  cases d with
  | none => left; rfl
  | some dd =>
    by_cases hg : dd.clusterId = "" ∨ dd.status ≠ "running"
    · left; simp [upgradeHaRoute, hg]
    · push_neg at hg
      by_cases hha : dd.ha
      · left; simp [upgradeHaRoute, hg.1, hg.2, hha]
      · cases ok with
        | false => left; simp [upgradeHaRoute, hg.1, hg.2, hha]
        | true =>
          right
          refine ⟨{ dd with ha := true }, ?_, hg.2⟩
          simp [upgradeHaRoute, hg.1, hg.2, hha]

/-- An error-status record keeps a non-empty message across one step when the
step's own provider failure messages are non-empty. -/
theorem errorStateInv_step (d : Option Doks) (op : OrgOp) (hInv : errorStateInv d)
    (hMsg : opMsgsNonempty op) : errorStateInv (applyOp d op) := by
  cases op with
  | provisionOp r hb n res =>
    show errorStateInv (provision d r hb n res).doks
    by_cases hc : hasNonErrorCluster d = true
    · simpa [provision, hc] using hInv
    · rw [Bool.not_eq_true] at hc
      cases res with
      | error m =>
        simp only [provision, hc, Bool.false_eq_true, if_false]
        exact fun _ => hMsg
      | ok c =>
        simp only [provision, hc, Bool.false_eq_true, if_false]
        intro hs
        exfalso
        revert hs
        show (applyClusterResponse (markProvisioning d r hb n) c).status = "error" → False
        by_cases h2 : c.state = "running" <;>
          simp [applyClusterResponse, markProvisioning, h2]
  | pollOp res =>
    show errorStateInv (statusPoll d res).doks
    rcases statusPoll_inv d res with h | ⟨dd, h, hs⟩
    · rw [h]; exact hInv
    · rw [h]
      intro hx
      rw [hs] at hx
      exact absurd hx (by decide)
  | deleteOp c ok =>
    show errorStateInv (deleteCluster d c ok).doks
    rcases deleteCluster_inv d c ok with h | h | ⟨dd, h, hs⟩
    · rw [h]; exact hInv
    · rw [h]; trivial
    · rw [h]
      intro hx
      rw [hs] at hx
      exact absurd hx (by decide)
  | addPoolOp res =>
    show errorStateInv (addPoolRoute d res)
    rcases addPoolRoute_inv d res with h | ⟨dd, h, hs⟩
    · rw [h]; exact hInv
    · rw [h]
      intro hx
      rw [hs] at hx
      exact absurd hx (by decide)
  | scalePoolOp pid res =>
    show errorStateInv (updatePoolRoute d pid res)
    rcases updatePoolRoute_inv d pid res with h | ⟨dd, h, hs⟩
    · rw [h]; exact hInv
    · rw [h]
      intro hx
      rw [hs] at hx
      exact absurd hx (by decide)
  | removePoolOp pid ok =>
    show errorStateInv (removePoolRoute d pid ok)
    rcases removePoolRoute_inv d pid ok with h | ⟨dd, h, hs⟩
    · rw [h]; exact hInv
    · rw [h]
      intro hx
      rw [hs] at hx
      exact absurd hx (by decide)
  | haOp ok =>
    show errorStateInv (upgradeHaRoute d ok)
    rcases upgradeHaRoute_inv d ok with h | ⟨dd, h, hs⟩
    · rw [h]; exact hInv
    · rw [h]
      intro hx
      rw [hs] at hx
      exact absurd hx (by decide)

/-- Claim C4: when the provider create call fails during provisioning, the
record is left present in error status with provisionError equal to the
failure message; and the invariant that every error-status record carries a
non-empty provisionError is preserved by every controller operation, given
that provider failure messages are non-empty. -/
theorem C4_thm :
    (∀ (d : Option Doks) (region : Option String) (hb : Bool) (now : Nat) (m : String),
        hasNonErrorCluster d = false →
        ∃ dd, (provision d region hb now (.error m)).doks = some dd ∧
          dd.status = "error" ∧ dd.provisionError = m) ∧
    (∀ (d : Option Doks) (op : OrgOp), errorStateInv d → opMsgsNonempty op →
        errorStateInv (applyOp d op)) := by
  constructor
  · intro d region hb now m hc
    refine ⟨markError (some (markProvisioning d region hb now)) m, ?_, rfl, rfl⟩
    simp [provision, hc]
  · exact errorStateInv_step

/-- Claim C4, witness: a failed retry provision on an errored record lands in
error status carrying the new failure message, and the error-status invariant
survives a status poll whose provider call fails. -/
theorem C4_witness :
    (∃ dd, (provision (some dErrored) none false 0 (.error "DO API 502")).doks = some dd ∧
        dd.status = "error" ∧ dd.provisionError = "DO API 502") ∧
    errorStateInv (applyOp (some dErrored) (.pollOp (.error "timeout"))) :=
  ⟨C4_thm.1 (some dErrored) none false 0 "DO API 502" (by decide),
   C4_thm.2 (some dErrored) (.pollOp (.error "timeout")) (by intro h; decide) trivial⟩

/-- Claim C5, counterexample: a status poll on an already-running cluster
whose provider response carries a changed endpoint and changed node pools
leaves the cached record byte-for-byte unchanged — the refresh only happens
on a status transition, not whenever endpoint or node pools changed. -/
theorem C5_counterexample :
    dRunning.status = "running" ∧ cFresh.state = "running" ∧
    dRunning.endpoint ≠ cFresh.endpoint ∧
    dRunning.nodePools ≠ cFresh.node_pools.map importedPool ∧
    (statusPoll (some dRunning) (.ok cFresh)).doks = some dRunning := by
  decide

/-- Claim C5, amended: on a poll whose provider-reported state is running the
cached status is or becomes running, and the cached endpoint and node pools
are refreshed from the provider response exactly when the cached status was
not already running; a poll on an already-running cluster leaves the cached
record unchanged even if endpoint or node pools differ. -/
theorem C5_amended (dd : Doks) (c : DOCluster) (h1 : dd.clusterId ≠ "")
    (h2 : c.state = "running") :
    (dd.status = "running" → (statusPoll (some dd) (.ok c)).doks = some dd) ∧
    (dd.status ≠ "running" →
      (statusPoll (some dd) (.ok c)).doks = some { dd with status := "running", endpoint := c.endpoint, nodePools := c.node_pools.map importedPool }) ∧
    ∃ dd2, (statusPoll (some dd) (.ok c)).doks = some dd2 ∧ dd2.status = "running" := by
  have hA : dd.status = "running" → (statusPoll (some dd) (.ok c)).doks = some dd := by
    intro h3
    simp [statusPoll, h1, h2, h3]
  have hB : dd.status ≠ "running" → (statusPoll (some dd) (.ok c)).doks = some { dd with status := "running", endpoint := c.endpoint, nodePools := c.node_pools.map importedPool } := by
    intro h3
    have h4 : ¬ ("running" = dd.status) := fun hx => h3 hx.symm
    simp [statusPoll, h1, h2, h4]
  refine ⟨hA, hB, ?_⟩
  by_cases h3 : dd.status = "running"
  · exact ⟨dd, hA h3, h3⟩
  · exact ⟨_, hB h3, rfl⟩

/-- Claim C5, witness: the amended statement evaluated on the running record
and the provider response with a moved endpoint. -/
theorem C5_witness :
    (statusPoll (some dRunning) (.ok cFresh)).doks = some dRunning ∧
    (∃ dd2, (statusPoll (some dRunning) (.ok cFresh)).doks = some dd2 ∧
      dd2.status = "running") :=
  ⟨(C5_amended dRunning cFresh (by decide) (by decide)).1 (by decide),
   (C5_amended dRunning cFresh (by decide) (by decide)).2.2⟩

/-- A set entry is what a get on the same key returns. -/
theorem cacheGet_set_self (c : PriceCache) (k : String) (v : CacheEntry) :
    cacheGet (cacheSet c k v) k = some v := by
  unfold cacheGet cacheSet
  rw [List.find?_cons_of_pos]
  · rfl
  · simp

/-- The upstream branch performs exactly one fetch, stores the result in the
cache only when the slug was found, and leaves the cache alone otherwise. -/
theorem fetchPricing_spec (cache : PriceCache) (slug : String) (now : Nat)
    (sizes : List DOSize) :
    (fetchPricing cache slug now sizes).upstreamCalls = 1 ∧
    (∀ p, getDropletPricing sizes slug = some p →
        (fetchPricing cache slug now sizes).result = some p ∧
        cacheGet (fetchPricing cache slug now sizes).cache slug = some { data := p, ts := now }) ∧
    (getDropletPricing sizes slug = none →
        (fetchPricing cache slug now sizes).result = none ∧
        (fetchPricing cache slug now sizes).cache = cache) := by
  cases hp : getDropletPricing sizes slug with
  | some p =>
    refine ⟨by simp [fetchPricing, hp], ?_, fun hq => nomatch hq⟩
    intro q hq
    injection hq with hq
    subst hq
    exact ⟨by simp [fetchPricing, hp], by simp [fetchPricing, hp, cacheGet_set_self]⟩
  | none =>
    refine ⟨by simp [fetchPricing, hp], ?_, ?_⟩
    · intro q hq
      exact nomatch hq
    · intro _
      exact ⟨by simp [fetchPricing, hp], by simp [fetchPricing, hp]⟩

/-- Claim C6: a cache entry younger than the one-hour TTL is returned with
zero upstream calls and an unchanged cache; otherwise exactly one upstream
fetch happens, a found slug is stored and returned, and a missing slug
returns nothing and leaves the cache unchanged. -/
theorem C6_thm (cache : PriceCache) (slug : String) (now : Nat) (sizes : List DOSize) :
    (∀ entry, cacheGet cache slug = some entry → now - entry.ts < CACHE_TTL →
        getCachedPricing cache slug now sizes =
          { result := some entry.data, cache := cache, upstreamCalls := 0 }) ∧
    ((∀ entry, cacheGet cache slug = some entry → CACHE_TTL ≤ now - entry.ts) →
        (getCachedPricing cache slug now sizes).upstreamCalls = 1 ∧
        (∀ p, getDropletPricing sizes slug = some p →
            (getCachedPricing cache slug now sizes).result = some p ∧
            cacheGet (getCachedPricing cache slug now sizes).cache slug =
              some { data := p, ts := now }) ∧
        (getDropletPricing sizes slug = none →
            (getCachedPricing cache slug now sizes).result = none ∧
            (getCachedPricing cache slug now sizes).cache = cache)) := by
  constructor
  · intro entry he hf
    simp [getCachedPricing, he, hf]
  · intro hstale
    cases hc : cacheGet cache slug with
    | none =>
      have hrw : getCachedPricing cache slug now sizes = fetchPricing cache slug now sizes := by
        simp [getCachedPricing, hc]
      rw [hrw]
      exact fetchPricing_spec cache slug now sizes
    | some e =>
      have hnf : ¬ (now - e.ts < CACHE_TTL) := not_lt.mpr (hstale e hc)
      have hrw : getCachedPricing cache slug now sizes = fetchPricing cache slug now sizes := by
        simp [getCachedPricing, hc, hnf]
      rw [hrw]
      exact fetchPricing_spec cache slug now sizes

/-- Claim C6, witness: a fresh hit answers from the cache with zero upstream
calls; a miss on an empty cache fetches once; an unknown slug returns nothing
and stores nothing. -/
theorem C6_witness :
    getCachedPricing sampleCache "s-2vcpu-4gb" 2000 sampleSizes =
      { result := some samplePricing, cache := sampleCache, upstreamCalls := 0 } ∧
    (getCachedPricing [] "s-2vcpu-4gb" 2000 sampleSizes).upstreamCalls = 1 ∧
    (getCachedPricing [] "bogus" 2000 sampleSizes).result = none ∧
    (getCachedPricing [] "bogus" 2000 sampleSizes).cache = [] :=
  ⟨(C6_thm sampleCache "s-2vcpu-4gb" 2000 sampleSizes).1
      { data := samplePricing, ts := 1000 } (by decide) (by decide),
   ((C6_thm [] "s-2vcpu-4gb" 2000 sampleSizes).2 (fun entry he => nomatch he)).1,
   (((C6_thm [] "bogus" 2000 sampleSizes).2 (fun entry he => nomatch he)).2.2 (by decide)).1,
   (((C6_thm [] "bogus" 2000 sampleSizes).2 (fun entry he => nomatch he)).2.2 (by decide)).2⟩

/-- Claim C7: the cost breakdown is the zero breakdown, with monthly total
zero and no line items, whenever the record is absent, lacks a clusterId or
is in error status; conversely any breakdown with line items comes from a
record with a clusterId and a non-error status. -/
theorem C7_thm (d : Option Doks) (priceOf : String → Option PricingInfo) (mp : ℚ) :
    zeroBreakdown.monthlyTotal = 0 ∧ zeroBreakdown.items = [] ∧
    (d = none → calculateOrgCost d priceOf mp = zeroBreakdown) ∧
    (∀ dd, d = some dd → dd.clusterId = "" ∨ dd.status = "error" →
        calculateOrgCost d priceOf mp = zeroBreakdown) ∧
    (∀ dd, d = some dd → (calculateOrgCost d priceOf mp).items ≠ [] →
        dd.clusterId ≠ "" ∧ dd.status ≠ "error") := by
  refine ⟨rfl, rfl, ?_, ?_, ?_⟩
  · intro h
    subst h
    rfl
  · intro dd h hcond
    subst h
    simp only [calculateOrgCost]
    rw [if_pos hcond]
  · intro dd h hne
    subst h
    by_cases hcond : dd.clusterId = "" ∨ dd.status = "error"
    · exfalso
      apply hne
      simp only [calculateOrgCost]
      rw [if_pos hcond]
      rfl
    · push_neg at hcond
      exact hcond

/-- Claim C7, witness: the zero breakdown on an errored record and on an
absent record, with a pricing oracle that would otherwise price pools. -/
theorem C7_witness :
    calculateOrgCost (some dErrored) (fun _ => some samplePricing) 0 = zeroBreakdown ∧
    calculateOrgCost none (fun _ => some samplePricing) 0 = zeroBreakdown :=
  ⟨(C7_thm (some dErrored) (fun _ => some samplePricing) 0).2.2.2.1 dErrored rfl (Or.inr rfl),
   (C7_thm none (fun _ => some samplePricing) 0).2.2.1 rfl⟩

/-- A call emitted by the GitHub post carries the github provider and the
state and sha it was handed. -/
theorem mem_postGithub {pat repoUrl sha state : String} {c : Call}
    (h : c ∈ postGithubCommitStatus pat repoUrl sha state) :
    c.provider = "github" ∧ c.state = state ∧ c.sha = sha := by
  unfold postGithubCommitStatus at h
  split at h
  · cases h
  · dsimp only at h
    split at h
    · cases h
    · rw [List.mem_singleton] at h
      subst h
      exact ⟨rfl, rfl, rfl⟩

/-- A call emitted by the GitLab post carries the gitlab provider and the
state and sha it was handed. -/
theorem mem_postGitlab {pat projectId sha state : String} {c : Call}
    (h : c ∈ postGitlabCommitStatus pat projectId sha state) :
    c.provider = "gitlab" ∧ c.state = state ∧ c.sha = sha := by
  unfold postGitlabCommitStatus at h
  split at h
  · cases h
  · rw [List.mem_singleton] at h
    subst h
    exact ⟨rfl, rfl, rfl⟩

/-- A call emitted by the Bitbucket post carries the bitbucket provider and
the state and sha it was handed. -/
theorem mem_postBitbucket {pat repoFullName sha state : String} {c : Call}
    (h : c ∈ postBitbucketCommitStatus pat repoFullName sha state) :
    c.provider = "bitbucket" ∧ c.state = state ∧ c.sha = sha := by
  unfold postBitbucketCommitStatus at h
  split at h
  · cases h
  · rw [List.mem_singleton] at h
    subst h
    exact ⟨rfl, rfl, rfl⟩

/-- Claim C8: the provider is chosen by the first present token parameter in
the order GitHub, GitLab, Bitbucket; with no token, or with an absent or
sentinel N/A revision, no outbound call is made; every call that is made
carries the outcome mapped into the provider vocabulary, success and failure
for GitHub, success and failed for GitLab, SUCCESSFUL and FAILED for
Bitbucket, where exactly Succeeded and TaskRunCancelled count as success. -/
theorem C8_thm (ps : Option (List (String × String))) (reason : String) :
    (extractGitParams ps = none → reportBackupCommitStatus ps reason = []) ∧
    (∀ g, extractGitParams ps = some g → g.revision = "" ∨ g.revision = "N/A" →
        reportBackupCommitStatus ps reason = []) ∧
    (∀ l, ps = some l → lookupParam l "githubpat" ≠ "" →
        extractGitParams ps = some { provider := "github", pat := lookupParam l "githubpat", repoUrl := lookupParam l "gitrepourl", revision := lookupParam l "gitrevision", repoName := lookupParam l "gitreponame", projectId := lookupParam l "gitlabprojectid" }) ∧
    (∀ l, ps = some l → lookupParam l "githubpat" = "" → lookupParam l "gitlabpat" ≠ "" →
        extractGitParams ps = some { provider := "gitlab", pat := lookupParam l "gitlabpat", repoUrl := lookupParam l "gitrepourl", revision := lookupParam l "gitrevision", repoName := lookupParam l "gitreponame", projectId := lookupParam l "gitlabprojectid" }) ∧
    (∀ l, ps = some l → lookupParam l "githubpat" = "" → lookupParam l "gitlabpat" = "" →
        lookupParam l "bitbucketpat" ≠ "" →
        extractGitParams ps = some { provider := "bitbucket", pat := lookupParam l "bitbucketpat", repoUrl := lookupParam l "gitrepourl", revision := lookupParam l "gitrevision", repoName := lookupParam l "gitreponame", projectId := lookupParam l "gitlabprojectid" }) ∧
    (∀ l, ps = some l → lookupParam l "githubpat" = "" → lookupParam l "gitlabpat" = "" →
        lookupParam l "bitbucketpat" = "" → extractGitParams ps = none) ∧
    (∀ c, c ∈ reportBackupCommitStatus ps reason →
        c.state = (if isSuccessReason reason then (if c.provider = "bitbucket" then "SUCCESSFUL" else "success") else (if c.provider = "github" then "failure" else if c.provider = "gitlab" then "failed" else "FAILED"))) ∧
    (isSuccessReason "Succeeded" = true ∧ isSuccessReason "TaskRunCancelled" = true ∧
     isSuccessReason "Failed" = false ∧ isSuccessReason "Error" = false ∧
     isSuccessReason "TaskRunTimeout" = false ∧
     isSuccessReason "TaskRunImagePullFailed" = false) := by
  refine ⟨?_, ?_, ?_, ?_, ?_, ?_, ?_, by decide⟩
  · intro h
    simp [reportBackupCommitStatus, h]
  · intro g hg hrev
    simp [reportBackupCommitStatus, hg, hrev]
  · intro l hps h1
    subst hps
    unfold extractGitParams
    dsimp only
    rw [if_pos h1]
  · intro l hps h1 h2
    subst hps
    unfold extractGitParams
    dsimp only
    rw [if_neg (fun hx => hx h1), if_pos h2]
  · intro l hps h1 h2 h3
    subst hps
    unfold extractGitParams
    dsimp only
    rw [if_neg (fun hx => hx h1), if_neg (fun hx => hx h2), if_pos h3]
  · intro l hps h1 h2 h3
    subst hps
    unfold extractGitParams
    dsimp only
    rw [if_neg (fun hx => hx h1), if_neg (fun hx => hx h2), if_neg (fun hx => hx h3)]
  · intro c hc
    unfold reportBackupCommitStatus at hc
    cases hx : extractGitParams ps with
    | none =>
      rw [hx] at hc
      simp at hc
    | some g =>
      rw [hx] at hc
      dsimp only at hc
      split at hc
      · cases hc
      · split at hc
        · rcases mem_postGithub hc with ⟨hp, hs, -⟩
          rw [hp, hs]
          by_cases hsucc : isSuccessReason reason <;> simp [hsucc]
        · split at hc
          · rcases mem_postGitlab hc with ⟨hp, hs, -⟩
            rw [hp, hs]
            by_cases hsucc : isSuccessReason reason <;> simp [hsucc]
          · split at hc
            · rcases mem_postBitbucket hc with ⟨hp, hs, -⟩
              rw [hp, hs]
              by_cases hsucc : isSuccessReason reason <;> simp [hsucc]
            · cases hc

/-- Claim C8, witness: a Succeeded GitHub run posts state success for its
revision, the sentinel revision posts nothing, and the extraction on the
GitHub run parameters picks the github provider. -/
theorem C8_witness :
    reportBackupCommitStatus (some sentinelRunParams) "Succeeded" = [] ∧
    (∀ c, c ∈ reportBackupCommitStatus (some githubRunParams) "Succeeded" →
        c.state = (if isSuccessReason "Succeeded" then (if c.provider = "bitbucket" then "SUCCESSFUL" else "success") else (if c.provider = "github" then "failure" else if c.provider = "gitlab" then "failed" else "FAILED"))) ∧
    extractGitParams (some githubRunParams) = some { provider := "github", pat := lookupParam githubRunParams "githubpat", repoUrl := lookupParam githubRunParams "gitrepourl", revision := lookupParam githubRunParams "gitrevision", repoName := lookupParam githubRunParams "gitreponame", projectId := lookupParam githubRunParams "gitlabprojectid" } :=
  ⟨(C8_thm (some sentinelRunParams) "Succeeded").2.1
      { provider := "github", pat := "tok", repoUrl := "https://github.com/acme/app", revision := "N/A", repoName := "", projectId := "" }
      (by decide) (Or.inr rfl),
   (C8_thm (some githubRunParams) "Succeeded").2.2.2.2.2.2.1,
   (C8_thm (some githubRunParams) "Succeeded").2.2.1 githubRunParams rfl (by decide)⟩

/-- Claim C9, counterexample: an event whose timestamp parses to epoch zero
is earlier than the subscription start time 100, yet the watcher still
performs its side effects, because the extracted time fails the JS
truthiness test in the filter. -/
theorem C9_counterexample :
    eventTime epochZeroEvent = some 0 ∧ (0 : Nat) < 100 ∧
    handleEvent 100 epochZeroEvent (some sampleTaskRun) ≠ [] := by
  refine ⟨rfl, by decide, ?_⟩
  decide

/-- Claim C9, amended: an event carrying a non-zero timestamp earlier than
the current threshold produces no side effects; a transport error resets the
threshold to the reconnect time, and the error callback schedules exactly one
restart after the fixed 2000 millisecond delay, so a redelivered event with a
non-zero timestamp predating the reconnect is never reprocessed; events with
an absent or epoch-zero timestamp bypass this filter. -/
theorem C9_amended :
    (∀ (th : Nat) (e : BuildEvent) (tr : Option TaskRun) (t : Nat),
        eventTime e = some t → t ≠ 0 → t < th →
        stepWatcher { threshold := th } (.deliver e tr) = ({ threshold := th }, [])) ∧
    (∀ (st : WatcherState) (t : Nat),
        stepWatcher st (.transportError t) = ({ threshold := t }, [])) ∧
    watchErrorCallbackSchedule = [WATCH_ERROR_RETRY_DELAY_MS] ∧
    WATCH_ERROR_RETRY_DELAY_MS = 2000 ∧
    (∀ (st : WatcherState) (t : Nat) (e : BuildEvent) (tr : Option TaskRun) (s : Nat),
        eventTime e = some s → s ≠ 0 → s < t →
        (stepWatcher (stepWatcher st (.transportError t)).1 (.deliver e tr)).2 = []) := by
  have hdrop : ∀ (th : Nat) (e : BuildEvent) (t : Nat),
      eventTime e = some t → t ≠ 0 → t < th → droppedByStartFilter th e = true := by
    intro th e t he h0 hlt
    simp [droppedByStartFilter, he, h0, hlt]
  refine ⟨?_, ?_, rfl, rfl, ?_⟩
  · intro th e tr t he h0 hlt
    simp [stepWatcher, handleEvent, hdrop th e t he h0 hlt]
  · intro st t
    rfl
  · intro st t e tr s he h0 hlt
    simp [stepWatcher, handleEvent, hdrop t e s he h0 hlt]

/-- Claim C9, witness: the amended statement evaluated on an event stamped 50
against a threshold of 100, and across a transport error reconnecting at
time 100. -/
theorem C9_witness :
    stepWatcher { threshold := 100 } (.deliver staleEvent (some sampleTaskRun)) =
      ({ threshold := 100 }, []) ∧
    stepWatcher { threshold := 0 } (.transportError 100) = ({ threshold := 100 }, []) ∧
    (stepWatcher (stepWatcher { threshold := 0 } (.transportError 100)).1
        (.deliver staleEvent (some sampleTaskRun))).2 = [] :=
  ⟨C9_amended.1 100 staleEvent (some sampleTaskRun) 50 rfl (by decide) (by decide),
   C9_amended.2.1 { threshold := 0 } 100,
   C9_amended.2.2.2.2 { threshold := 0 } 100 staleEvent (some sampleTaskRun) 50 rfl
     (by decide) (by decide)⟩

/-- Claim C10: an event carrying neither a lastTimestamp nor a firstTimestamp
is never dropped by the subscription-start-time filter: its handling does not
depend on the threshold at all, including the one set by a reconnect, and it
is processed subject only to the reason filter. -/
theorem C10_thm (t1 t2 : Nat) (e : BuildEvent) (tr : Option TaskRun)
    (h : eventTime e = none) :
    droppedByStartFilter t1 e = false ∧
    handleEvent t1 e tr = handleEvent t2 e tr ∧
    handleEvent t1 e tr =
      (if e.reason ∈ watchedReasons then processQualified e tr else []) := by
  have hd : ∀ t, droppedByStartFilter t e = false := by
    intro t
    simp [droppedByStartFilter, h]
  exact ⟨hd t1, by simp [handleEvent, hd], by simp [handleEvent, hd]⟩

/-- Claim C10, witness: the timestamp-less event is not dropped even by a
very late threshold, and is handled identically under threshold zero. -/
theorem C10_witness :
    droppedByStartFilter 999999 timelessEvent = false ∧
    handleEvent 999999 timelessEvent (some sampleTaskRun) =
      handleEvent 0 timelessEvent (some sampleTaskRun) ∧
    handleEvent 999999 timelessEvent (some sampleTaskRun) =
      (if timelessEvent.reason ∈ watchedReasons then processQualified timelessEvent (some sampleTaskRun) else []) :=
  C10_thm 999999 0 timelessEvent (some sampleTaskRun) rfl

end Paas
